import Mathlib

/-!
Shallow embedding of the Aetos.Orchestrator core: the listing lifecycle
state machine, the `ProductListing` aggregate, the ingestion and transition
use cases, and the background polling coordinator of `function_app.py`.

Conventions of the embedding:
* `datetime` values are abstract instants modelled as `Nat`; the current
  time (`_utcnow()`) is passed explicitly as a `now` argument.
* `UUID` identities are modelled as `Nat`, supplied by the caller where the
  source draws a fresh `uuid4()`.
* `Decimal` amounts are modelled as `Int` (no claim computes with them).
* Python exceptions are modelled with `Except`; a raising method on the
  aggregate returns the aggregate as it stands when the exception
  propagates, so that atomicity on failure is a statement, not an artifact.
-/

namespace Aetos

/-- src/domain/enums/listing_state.py: `ListingState`. -/
inductive ListingState
  | FOUND
  | MESSAGING
  | NEGOTIATING
  | PURCHASED
  | RECEIVED
  | LISTED
  | SOLD
  | CANCELLED
deriving DecidableEq, Fintype, Repr

/-- `ListingState.is_terminal`: SOLD and CANCELLED cannot be transitioned out of. -/
def ListingState.is_terminal : ListingState → Bool
  | .SOLD => true
  | .CANCELLED => true
  | _ => false

/-- src/domain/state_machine/lifecycle_state_machine.py: `VALID_TRANSITIONS`,
the mapping from a state to the frozenset of allowed destination states. -/
def VALID_TRANSITIONS : ListingState → Finset ListingState
  | .FOUND => {.MESSAGING, .CANCELLED}
  | .MESSAGING => {.NEGOTIATING, .CANCELLED}
  | .NEGOTIATING => {.PURCHASED, .CANCELLED}
  | .PURCHASED => {.RECEIVED, .CANCELLED}
  | .RECEIVED => {.LISTED}
  | .LISTED => {.SOLD}
  | .SOLD => ∅
  | .CANCELLED => ∅

/-- `LifecycleStateMachine.can_transition`. -/
def can_transition (from_state to_state : ListingState) : Bool :=
  if from_state.is_terminal then false
  else decide (to_state ∈ VALID_TRANSITIONS from_state)

/-- `InvalidStateTransitionError`: carries the offending from/to pair. -/
structure InvalidStateTransitionError where
  from_state : ListingState
  to_state : ListingState
deriving DecidableEq, Repr

/-- `LifecycleStateMachine.validate_transition`: raises
`InvalidStateTransitionError` when the transition is not permitted. -/
def validate_transition (from_state to_state : ListingState) :
    Except InvalidStateTransitionError Unit :=
  if can_transition from_state to_state then Except.ok ()
  else Except.error ⟨from_state, to_state⟩

/-- `LifecycleStateMachine.get_allowed_transitions`. -/
def get_allowed_transitions (from_state : ListingState) : Finset ListingState :=
  VALID_TRANSITIONS from_state

/-- The allowed-transition table exactly as the spec's §4.1 words it
(FOUND→{MESSAGING, CANCELLED}; MESSAGING→{NEGOTIATING, CANCELLED};
NEGOTIATING→{PURCHASED, CANCELLED}; PURCHASED→{RECEIVED, CANCELLED};
RECEIVED→{LISTED}; LISTED→{SOLD}; SOLD→{}; CANCELLED→{}), to be compared
with the table translated from the source. -/
def spec_allowed_table : ListingState → Finset ListingState
  | .FOUND => {.MESSAGING, .CANCELLED}
  | .MESSAGING => {.NEGOTIATING, .CANCELLED}
  | .NEGOTIATING => {.PURCHASED, .CANCELLED}
  | .PURCHASED => {.RECEIVED, .CANCELLED}
  | .RECEIVED => {.LISTED}
  | .LISTED => {.SOLD}
  | .SOLD => ∅
  | .CANCELLED => ∅

/-- src/domain/events/domain_events.py: the two event shapes the core emits
for listings. The `event_id`/`occurred_at` base fields (fresh `uuid4()` and
wall-clock time drawn inside the constructor) are not modelled; no claim
mentions them. -/
inductive DomainEvent
  | listingCreated (listing_id : Nat) (product_id : Int) (scraper_job_id : Nat)
      (brand : String) (model : String) (marketplace_url : String)
      (asking_price : Int) (confidence_score : Int) (estimated_profit : Int)
  | listingStateChanged (listing_id : Nat) (from_state : Option ListingState)
      (to_state : ListingState) (triggered_by : String)
deriving DecidableEq, Repr

/-- The listing identity an event is about. -/
def DomainEvent.about : DomainEvent → Nat
  | .listingCreated lid _ _ _ _ _ _ _ _ => lid
  | .listingStateChanged lid _ _ _ => lid

/-- src/domain/entities/product_listing.py: the `ProductListing` dataclass.
Fields the embedded operations never touch (deal details, eBay details,
profit tracking, error tracking) are omitted; every field read or written by
`create_from_scraper_match`, `transition_to`, `_apply_lifecycle_timestamp`
or `collect_events` is present. -/
structure ProductListing where
  id : Nat
  product_id : Int
  marketplace_url : String
  title : String
  asking_price : Int
  state : ListingState
  created_at : Nat
  updated_at : Nat
  state_changed_at : Nat
  found_at : Nat
  messaged_at : Option Nat
  negotiating_at : Option Nat
  purchased_at : Option Nat
  received_at : Option Nat
  listed_at : Option Nat
  sold_at : Option Nat
  cancelled_at : Option Nat
  scraper_job_id : Nat
  brand : String
  model : String
  confidence_score : Int
  estimated_profit : Int
  events : List DomainEvent
deriving DecidableEq, Repr

/-- `ProductListing.create_from_scraper_match`: the factory. The fresh
`uuid4()` identity and `_utcnow()` default timestamps of the dataclass are
passed in as `id` and `now`. Starts in FOUND, all nullable lifecycle
timestamps null, and buffers exactly one `ListingCreatedEvent`. -/
def create_from_scraper_match (id : Nat) (product_id : Int)
    (marketplace_url : String) (title : String) (asking_price : Int)
    (scraper_job_id : Nat) (brand : String) (model : String)
    (confidence_score : Int) (estimated_profit : Int) (now : Nat) :
    ProductListing :=
  { id := id
    product_id := product_id
    marketplace_url := marketplace_url
    title := title
    asking_price := asking_price
    state := ListingState.FOUND
    created_at := now
    updated_at := now
    state_changed_at := now
    found_at := now
    messaged_at := none
    negotiating_at := none
    purchased_at := none
    received_at := none
    listed_at := none
    sold_at := none
    cancelled_at := none
    scraper_job_id := scraper_job_id
    brand := brand
    model := model
    confidence_score := confidence_score
    estimated_profit := estimated_profit
    events := [DomainEvent.listingCreated id product_id scraper_job_id brand
      model marketplace_url asking_price confidence_score estimated_profit] }

/-- `ProductListing._apply_lifecycle_timestamp`: writes the timestamp slot
named by `mapping.get(state)`; for FOUND (absent from the mapping) nothing
is written. NOTE: the source's `setattr` is unconditional — there is no
check that the slot is still null. -/
def apply_lifecycle_timestamp (p : ProductListing) (state : ListingState)
    (now : Nat) : ProductListing :=
  match state with
  | .MESSAGING => { p with messaged_at := some now }
  | .NEGOTIATING => { p with negotiating_at := some now }
  | .PURCHASED => { p with purchased_at := some now }
  | .RECEIVED => { p with received_at := some now }
  | .LISTED => { p with listed_at := some now }
  | .SOLD => { p with sold_at := some now }
  | .CANCELLED => { p with cancelled_at := some now }
  | .FOUND => p

/-- Read accessor for the nullable lifecycle slot of a state (FOUND has no
nullable slot; its `found_at` is non-nullable and handled separately). -/
def lifecycle_slot (p : ProductListing) : ListingState → Option Nat
  | .FOUND => none
  | .MESSAGING => p.messaged_at
  | .NEGOTIATING => p.negotiating_at
  | .PURCHASED => p.purchased_at
  | .RECEIVED => p.received_at
  | .LISTED => p.listed_at
  | .SOLD => p.sold_at
  | .CANCELLED => p.cancelled_at

/-- `ProductListing.transition_to`: validates first (raising with the
aggregate untouched), then sets state and bookkeeping timestamps, applies
the lifecycle timestamp, and appends one `ListingStateChangedEvent`. The
error value carries the aggregate as it stands when the exception
propagates. -/
def transition_to (p : ProductListing) (new_state : ListingState)
    (triggered_by : String) (now : Nat) :
    Except (InvalidStateTransitionError × ProductListing) ProductListing :=
  match validate_transition p.state new_state with
  | .error e => .error (e, p)
  | .ok _ =>
    let old_state := p.state
    let p1 := { p with state := new_state, state_changed_at := now,
                       updated_at := now }
    let p2 := apply_lifecycle_timestamp p1 new_state now
    .ok { p2 with events := p2.events ++
      [DomainEvent.listingStateChanged p.id (some old_state) new_state
        triggered_by] }

/-- `ProductListing.collect_events`: returns the buffered events and the
aggregate with its buffer cleared. -/
def collect_events (p : ProductListing) : List DomainEvent × ProductListing :=
  (p.events, { p with events := [] })

/-- A row appended through the state-history repository port
(`history_repo.save(listing_id, from_state, to_state, triggered_by,
metadata)`); `metadata` is the string-to-string payload dict in insertion
order. -/
structure HistoryRecord where
  listing_id : Nat
  from_state : Option ListingState
  to_state : ListingState
  triggered_by : String
  metadata : List (String × String)
deriving DecidableEq, Repr

/-- src/application/use_cases/create_listings_from_scraper.py:
`ScraperMatch` input dataclass (floats modelled as `Int`). -/
structure ScraperMatch where
  url : String
  title : String
  price : Int
  product_id : Int
  brand : String
  model : String
  confidence : Int
  potential_profit : Int
deriving DecidableEq, Repr

/-- One match of the ingestion batch together with the fault profile of its
four effectful steps (building the aggregate, `listing_repo.save`,
`history_repo.save`, `event_publisher.publish_many`): `true` means the step
completes, `false` means it raises. `listing_id` is the fresh `uuid4()` the
built aggregate would receive. -/
structure MatchStep where
  m : ScraperMatch
  listing_id : Nat
  build_ok : Bool
  save_ok : Bool
  history_ok : Bool
  publish_ok : Bool
deriving DecidableEq, Repr

/-- Side effects accumulated against the three ports. -/
structure PortEffects where
  saved : List ProductListing
  history : List HistoryRecord
  published : List DomainEvent
deriving DecidableEq, Repr

/-- `CreateListingsFromScraperOutput`. -/
structure IngestOutput where
  created_listing_ids : List Nat
  skipped_count : Nat
deriving DecidableEq, Repr

/-- The aggregate built for one match inside the ingestion loop. -/
def built_listing (job_id : Nat) (now : Nat) (s : MatchStep) : ProductListing :=
  create_from_scraper_match s.listing_id s.m.product_id s.m.url s.m.title
    s.m.price job_id s.m.brand s.m.model s.m.confidence s.m.potential_profit
    now

/-- The history row the ingestion loop writes for one created match. -/
def ingest_history_row (job_id : Nat) (brand : String) (s : MatchStep) :
    HistoryRecord :=
  { listing_id := s.listing_id
    from_state := none
    to_state := ListingState.FOUND
    triggered_by := "scraper_webhook"
    metadata := [("job_id", toString job_id), ("brand", brand)] }

/-- One iteration of `CreateListingsFromScraper.execute`'s per-match loop:
build, save, record history, drain-and-publish, then append the id; any
raise is caught by the per-match handler and counted as skipped (the
effects already performed before the raise stand — there is no rollback). -/
def ingest_one (job_id : Nat) (brand : String) (now : Nat) (s : MatchStep) :
    IngestOutput × PortEffects :=
  if s.build_ok = false then (⟨[], 1⟩, ⟨[], [], []⟩)
  else if s.save_ok = false then (⟨[], 1⟩, ⟨[], [], []⟩)
  else if s.history_ok = false then
    (⟨[], 1⟩, ⟨[built_listing job_id now s], [], []⟩)
  else if s.publish_ok = false then
    (⟨[], 1⟩, ⟨[built_listing job_id now s], [ingest_history_row job_id brand s], []⟩)
  else
    (⟨[s.listing_id], 0⟩,
     ⟨[built_listing job_id now s], [ingest_history_row job_id brand s],
      (built_listing job_id now s).events⟩)

/-- `CreateListingsFromScraper.execute`: folds the per-match step over the
batch, concatenating effects and summing the skipped count. -/
def create_listings_execute (job_id : Nat) (brand : String) (now : Nat) :
    List MatchStep → IngestOutput × PortEffects
  | [] => (⟨[], 0⟩, ⟨[], [], []⟩)
  | s :: rest =>
    let head := ingest_one job_id brand now s
    let tail := create_listings_execute job_id brand now rest
    (⟨head.1.created_listing_ids ++ tail.1.created_listing_ids,
      head.1.skipped_count + tail.1.skipped_count⟩,
     ⟨head.2.saved ++ tail.2.saved, head.2.history ++ tail.2.history,
      head.2.published ++ tail.2.published⟩)

/-- src/application/use_cases/transition_listing_state.py: inputs. -/
structure TransitionInput where
  listing_id : Nat
  to_state : ListingState
  triggered_by : String
  reason : Option String
deriving DecidableEq, Repr

/-- `TransitionListingStateOutput`. -/
structure TransitionOutput where
  listing_id : Nat
  from_state : ListingState
  to_state : ListingState
deriving DecidableEq, Repr

/-- The two exception types the transition use case can surface:
`ListingNotFoundError` (unknown identity) and the state machine's
`InvalidStateTransitionError`, distinct constructors of distinct shape. -/
inductive UseCaseError
  | listingNotFound (listing_id : Nat)
  | invalidTransition (e : InvalidStateTransitionError)
deriving DecidableEq, Repr

/-- The metadata dict built by `TransitionListingState.execute`:
`{"triggered_by": ...}` plus `"reason"` when `input_data.reason` is truthy
(Python truthiness: absent and empty string both falsy). -/
def transition_metadata (triggered_by : String) (reason : Option String) :
    List (String × String) :=
  match reason with
  | some r => if r = "" then [("triggered_by", triggered_by)]
              else [("triggered_by", triggered_by), ("reason", r)]
  | none => [("triggered_by", triggered_by)]

/-- `TransitionListingState.execute`. `stored` is what
`listing_repo.get_by_id` returns. On an error no port is touched, mirroring
the raise happening before any save/history/publish call. -/
def transition_listing_state_execute (stored : Option ProductListing)
    (input : TransitionInput) (now : Nat) :
    Except UseCaseError TransitionOutput × PortEffects :=
  match stored with
  | none => (.error (.listingNotFound input.listing_id), ⟨[], [], []⟩)
  | some listing =>
    let from_state := listing.state
    match transition_to listing input.to_state input.triggered_by now with
    | .error (e, _) => (.error (.invalidTransition e), ⟨[], [], []⟩)
    | .ok listing₂ =>
      let drained := collect_events listing₂
      (.ok ⟨listing₂.id, from_state, input.to_state⟩,
       ⟨[listing₂],
        [⟨listing₂.id, some from_state, input.to_state, input.triggered_by,
          transition_metadata input.triggered_by input.reason⟩],
        drained.1⟩)

/-!
function_app.py: `poll_scraper_and_process`, the background polling
coordinator. One loop iteration consumes one response from the external
job-status endpoint. Match payloads are opaque to the loop (they are passed
through to `process_scraper_matches` unexamined), so they are modelled as
bare `Nat` tokens.
-/

/-- What the i-th polling attempt observes: whether
`coordinator.get_job_status` raises, the `status` string and
`result["matches"]` payloads (field named `match_list`; `matches` is reserved in Lean) it returns otherwise, whether
`process_scraper_matches` would raise if invoked on this attempt, and
whether `container_manager.stop_container` would raise if invoked on this
attempt. -/
structure PollResponse where
  query_raises : Bool
  status : String
  match_list : List Nat
  ingest_raises : Bool
  stop_raises : Bool

/-- How the polling loop ended: via a `completed` status, via a
`failed`/`error` status, or by exhausting the attempt ceiling. -/
inductive PollExit
  | completed
  | failed
  | timeout
deriving DecidableEq, Repr

/-- The observable trace of one coordinator run: the argument of each call
to `process_scraper_matches` (in order), the number of
`stop_container` attempts, the number of loop iterations executed, how the
run ended, and the status string of the response that ended it (`none` when
the ceiling ended it). -/
structure PollRun where
  ingested : List (List Nat)
  stop_attempts : Nat
  iterations : Nat
  exit_kind : PollExit
  exit_status : Option String
deriving DecidableEq, Repr

/-- `container_manager.stop_container`: may raise. -/
def stop_container (raises : Bool) : Except Unit Unit :=
  if raises then .error () else .ok ()

/-- The `try: stop_container ... except: pass` pattern wrapped around every
release attempt in `poll_scraper_and_process`: the outcome is discarded
either way. -/
def absorb_stop (raises : Bool) (r : PollRun) : PollRun :=
  match stop_container raises with
  | .ok _ => r
  | .error _ => r

/-- Account one more executed loop iteration. -/
def bump (r : PollRun) : PollRun := { r with iterations := r.iterations + 1 }

/-- Account one more `process_scraper_matches` call, earliest first. -/
def add_ingest (m : List Nat) (r : PollRun) : PollRun :=
  { r with ingested := m :: r.ingested }

/-- `max_polls = 40` in `poll_scraper_and_process`. -/
def max_polls : Nat := 40

/-- The `while poll_count < max_polls` loop of `poll_scraper_and_process`,
with `fuel = max_polls - poll_count`. Each iteration increments
`poll_count` right after the sleep (one unit of fuel); the `except` handler
increments it a second time (a second unit of fuel). `fs` is whether the
ceiling-path `stop_container` call would raise.

Branches, in source order: exception from the status query (caught:
`poll_count += 1; continue`); `completed` with an empty match list (no
ingestion, absorbed stop, return); `completed` with matches whose ingestion
raises (caught: `poll_count += 1; continue` — the stop is never reached);
`completed` with matches ingested (one ingestion, absorbed stop, return);
`failed`/`error` (absorbed stop, return); `pending`/`running` (continue);
anything else (warn, continue). After the loop: absorbed stop. -/
def poll_loop (s : Nat → PollResponse) (fs : Bool) :
    Nat → Nat → PollRun
  | 0, _ => absorb_stop fs ⟨[], 1, 0, .timeout, none⟩
  | fuel + 1, i =>
    let r := s i
    if r.query_raises then
      match fuel with
      | 0 => absorb_stop fs ⟨[], 1, 1, .timeout, none⟩
      | f + 1 => bump (poll_loop s fs f (i + 1))
    else if r.status = "completed" then
      if r.match_list = [] then
        absorb_stop r.stop_raises ⟨[], 1, 1, .completed, some "completed"⟩
      else if r.ingest_raises then
        match fuel with
        | 0 => absorb_stop fs ⟨[r.match_list], 1, 1, .timeout, none⟩
        | f + 1 => add_ingest r.match_list (bump (poll_loop s fs f (i + 1)))
      else
        absorb_stop r.stop_raises
          ⟨[r.match_list], 1, 1, .completed, some "completed"⟩
    else if r.status = "failed" ∨ r.status = "error" then
      absorb_stop r.stop_raises ⟨[], 1, 1, .failed, some r.status⟩
    else if r.status = "pending" ∨ r.status = "running" then
      bump (poll_loop s fs fuel (i + 1))
    else
      bump (poll_loop s fs fuel (i + 1))

/-- `poll_scraper_and_process`: run the loop with the full attempt ceiling. -/
def poll_scraper_and_process (s : Nat → PollResponse) (fs : Bool) : PollRun :=
  poll_loop s fs max_polls 0

/-- A response on which the loop keeps polling: the query succeeded and the
status is none of the three terminating values. Covers `pending`,
`running`, and every unrecognized status. -/
def retryable_response (r : PollResponse) : Prop :=
  r.query_raises = false ∧ r.status ≠ "completed" ∧ r.status ≠ "failed" ∧
    r.status ≠ "error"

/-- Strict reachability in the transition graph, with enough fuel to cover
the longest chain (FOUND → … → SOLD has six edges; fuel 8 is saturating). -/
def reachB : Nat → ListingState → ListingState → Bool
  | 0, _, _ => false
  | n + 1, a, b =>
    decide (b ∈ VALID_TRANSITIONS a) ||
      decide (∃ c ∈ VALID_TRANSITIONS a, reachB n c b = true)

/-- `reach a b`: b is reachable from a by one or more allowed transitions. -/
def reach (a b : ListingState) : Bool := reachB 8 a b

/-- An aggregate whose nullable lifecycle timestamps are still null for
every state strictly reachable from its current state. Freshly created
aggregates satisfy this, and (as proved below) every `transition_to`
preserves it. -/
abbrev TimestampsFresh (p : ProductListing) : Prop :=
  ∀ s, reach p.state s = true → lifecycle_slot p s = none

/-- The aggregate value produced by a successful `transition_to`. -/
def transition_result (p : ProductListing) (ns : ListingState)
    (tb : String) (now : Nat) : ProductListing :=
  let p1 := { p with state := ns, state_changed_at := now, updated_at := now }
  let p2 := apply_lifecycle_timestamp p1 ns now
  { p2 with events := p2.events ++
      [DomainEvent.listingStateChanged p.id (some p.state) ns tb] }

end Aetos

/-! ## Theorems -/

namespace Aetos

/-- No state has an allowed transition into FOUND. -/
theorem can_transition_to_found (f : ListingState) :
    can_transition f .FOUND = false := by
  revert f; decide

/-- A disallowed transition raises, with the aggregate exactly as it was. -/
theorem transition_to_eq_error (p : ProductListing) (ns : ListingState)
    (tb : String) (now : Nat) (h : can_transition p.state ns = false) :
    transition_to p ns tb now = .error (⟨p.state, ns⟩, p) := by
  simp [transition_to, validate_transition, h]

/-- An allowed transition succeeds and returns `transition_result`. -/
theorem transition_to_eq_ok (p : ProductListing) (ns : ListingState)
    (tb : String) (now : Nat) (h : can_transition p.state ns = true) :
    transition_to p ns tb now = .ok (transition_result p ns tb now) := by
  simp [transition_to, validate_transition, h, transition_result]

theorem transition_result_state (p : ProductListing) (ns : ListingState)
    (tb : String) (now : Nat) : (transition_result p ns tb now).state = ns := by
  cases ns <;> rfl

theorem transition_result_events (p : ProductListing) (ns : ListingState)
    (tb : String) (now : Nat) :
    (transition_result p ns tb now).events = p.events ++
      [DomainEvent.listingStateChanged p.id (some p.state) ns tb] := by
  cases ns <;> rfl

theorem transition_result_id (p : ProductListing) (ns : ListingState)
    (tb : String) (now : Nat) : (transition_result p ns tb now).id = p.id := by
  cases ns <;> rfl

theorem transition_result_found_at (p : ProductListing) (ns : ListingState)
    (tb : String) (now : Nat) :
    (transition_result p ns tb now).found_at = p.found_at := by
  cases ns <;> rfl

theorem transition_result_slot_self (p : ProductListing) (ns : ListingState)
    (tb : String) (now : Nat) (h : ns ≠ .FOUND) :
    lifecycle_slot (transition_result p ns tb now) ns = some now := by
  cases ns <;> simp_all [transition_result, apply_lifecycle_timestamp,
    lifecycle_slot]

theorem transition_result_slot_other (p : ProductListing) (ns : ListingState)
    (tb : String) (now : Nat) (s : ListingState) (h : s ≠ ns) :
    lifecycle_slot (transition_result p ns tb now) s = lifecycle_slot p s := by
  cases ns <;> cases s <;> simp_all [transition_result,
    apply_lifecycle_timestamp, lifecycle_slot]

/-- C2: `can_transition` is false out of the terminal states SOLD and
CANCELLED, and elsewhere agrees exactly with membership in the spec's
allowed-set table; `get_allowed_transitions` returns exactly the spec's set
for every state. -/
theorem can_transition_matches_spec_table :
    (∀ f t : ListingState, f = .SOLD ∨ f = .CANCELLED →
      can_transition f t = false) ∧
    (∀ f t : ListingState,
      can_transition f t = true ↔
        f.is_terminal = false ∧ t ∈ spec_allowed_table f) ∧
    (∀ f : ListingState, get_allowed_transitions f = spec_allowed_table f) := by
  refine ⟨?_, ?_, ?_⟩ <;> decide

/-- Witness for C2 at concrete states: SOLD admits nothing, FOUND admits
MESSAGING, and FOUND's allowed set is the spec's. -/
theorem can_transition_matches_spec_table_witness :
    can_transition .SOLD .MESSAGING = false ∧
    can_transition .FOUND .MESSAGING = true ∧
    get_allowed_transitions .FOUND = spec_allowed_table .FOUND :=
  ⟨can_transition_matches_spec_table.1 .SOLD .MESSAGING (Or.inl rfl),
   (can_transition_matches_spec_table.2.1 .FOUND .MESSAGING).mpr (by decide),
   can_transition_matches_spec_table.2.2 .FOUND⟩

/-- C8: `collect_events` returns exactly the buffered events and empties
the buffer, so a second call with no intervening operation returns the
empty sequence. -/
theorem collect_events_drains (p : ProductListing) :
    (collect_events p).1 = p.events ∧
    ((collect_events p).2).events = [] ∧
    (collect_events ((collect_events p).2)).1 = [] := by
  simp [collect_events]

/-- An aggregate value in state FOUND whose `cancelled_at` slot is already
populated — constructible since the dataclass does not guard its fields. -/
def c1_stale : ProductListing :=
  { create_from_scraper_match 1 230 "url" "title" 400 9 "Sony" "a6400" 95
      100 0 with cancelled_at := some 5 }

/-- C1 counterexample: at `c1_stale` (state FOUND, `cancelled_at = some 5`)
the transition to CANCELLED succeeds, yet the lifecycle timestamp it writes
was NOT previously null — `_apply_lifecycle_timestamp` assigns
unconditionally — so the claim's success branch ("setting exactly one
previously-null lifecycle timestamp") is false for this aggregate. -/
theorem transition_to_atomic_counterexample :
    c1_stale.state = .FOUND ∧
    c1_stale.cancelled_at = some 5 ∧
    c1_stale.cancelled_at ≠ none ∧
    transition_to c1_stale .CANCELLED "ops" 9 =
      .ok (transition_result c1_stale .CANCELLED "ops" 9) ∧
    (transition_result c1_stale .CANCELLED "ops" 9).cancelled_at = some 9 :=
  ⟨rfl, rfl, by decide,
   transition_to_eq_ok c1_stale .CANCELLED "ops" 9 (by decide), rfl⟩

/-- C1 (amended): provided the lifecycle timestamp slot of the target state
is still null — true of every aggregate reachable by valid transitions from
creation — `transition_to` either (a) succeeds, changing the state to the
target, setting exactly that previously-null timestamp, leaving every other
lifecycle timestamp (and `found_at`) unchanged, and appending exactly one
`ListingStateChangedEvent`, or (b) raises the validation failure carrying
the aggregate with state, timestamps and event buffer exactly as they were
— never a partial effect. -/
theorem transition_to_atomic (p : ProductListing) (ns : ListingState)
    (tb : String) (now : Nat) (hnull : lifecycle_slot p ns = none) :
    (can_transition p.state ns = true ∧
      transition_to p ns tb now = .ok (transition_result p ns tb now) ∧
      (transition_result p ns tb now).state = ns ∧
      lifecycle_slot p ns = none ∧
      lifecycle_slot (transition_result p ns tb now) ns = some now ∧
      (∀ s, s ≠ ns →
        lifecycle_slot (transition_result p ns tb now) s = lifecycle_slot p s) ∧
      (transition_result p ns tb now).found_at = p.found_at ∧
      (transition_result p ns tb now).events = p.events ++
        [DomainEvent.listingStateChanged p.id (some p.state) ns tb]) ∨
    (can_transition p.state ns = false ∧
      transition_to p ns tb now = .error (⟨p.state, ns⟩, p)) := by
  cases hc : can_transition p.state ns with
  | false => exact Or.inr ⟨rfl, transition_to_eq_error p ns tb now hc⟩
  | true =>
    have hns : ns ≠ .FOUND := by
      intro h
      rw [h, can_transition_to_found] at hc
      exact Bool.false_ne_true hc
    exact Or.inl ⟨rfl, transition_to_eq_ok p ns tb now hc,
      transition_result_state p ns tb now, hnull,
      transition_result_slot_self p ns tb now hns,
      fun s hs => transition_result_slot_other p ns tb now s hs,
      transition_result_found_at p ns tb now,
      transition_result_events p ns tb now⟩

/-- A freshly created aggregate, used to instantiate C1's amended theorem. -/
def c1_fresh : ProductListing :=
  create_from_scraper_match 2 230 "url" "title" 400 9 "Sony" "a6400" 95 100 0

/-- Witness for C1 (amended) at a fresh aggregate and target MESSAGING. -/
theorem transition_to_atomic_witness :
    lifecycle_slot c1_fresh .MESSAGING = none ∧
    transition_to c1_fresh .MESSAGING "tester" 3 =
      .ok (transition_result c1_fresh .MESSAGING "tester" 3) := by
  have h := transition_to_atomic c1_fresh .MESSAGING "tester" 3 rfl
  rcases h with ⟨_, hok, _⟩ | ⟨hc, _⟩
  · exact ⟨rfl, hok⟩
  · exact absurd hc (by decide)

/-- One allowed step reaches its destination. -/
theorem reach_of_can (a b : ListingState) :
    can_transition a b = true → reach a b = true := by
  revert a b; decide

/-- Reachability absorbs an allowed step on the left. -/
theorem reach_trans_of_can (a b c : ListingState) :
    can_transition a b = true → reach b c = true → reach a c = true := by
  revert a b c; decide

/-- The transition graph is acyclic: no state strictly reaches itself. -/
theorem reach_self_false (a : ListingState) : reach a a = false := by
  revert a; decide

/-- An aggregate value whose `messaged_at` slot is populated while still in
state FOUND. -/
def c5_stale : ProductListing :=
  { create_from_scraper_match 3 230 "url" "title" 400 9 "Sony" "a6400" 95
      100 0 with messaged_at := some 1 }

/-- C5 counterexample: `transition_to` overwrites a non-null lifecycle
timestamp — at `c5_stale` (`messaged_at = some 1`) the transition to
MESSAGING succeeds and replaces the timestamp with `some 2`, so the claim
("sets the timestamp only if it is not already set, and no operation ever
overwrites a non-null lifecycle timestamp, for every aggregate value") is
false: `_apply_lifecycle_timestamp` has no null check. -/
theorem lifecycle_timestamp_set_once_counterexample :
    c5_stale.messaged_at = some 1 ∧
    transition_to c5_stale .MESSAGING "ops" 2 =
      .ok (transition_result c5_stale .MESSAGING "ops" 2) ∧
    (transition_result c5_stale .MESSAGING "ops" 2).messaged_at = some 2 ∧
    (transition_result c5_stale .MESSAGING "ops" 2).messaged_at ≠ some 1 :=
  ⟨rfl, transition_to_eq_ok c5_stale .MESSAGING "ops" 2 (by decide), rfl,
   by decide⟩

/-- C5 (amended): `transition_to` writes the destination timestamp
unconditionally, but on every aggregate whose still-reachable lifecycle
timestamps are null — an invariant established at creation and preserved by
every successful transition — the timestamp being set is null beforehand
and no other slot changes; hence along any sequence of valid transitions
from a freshly created aggregate each lifecycle timestamp is set at most
once and never cleared or overwritten. -/
theorem lifecycle_timestamp_set_once :
    (∀ (id : Nat) (pid : Int) (url title : String) (price : Int) (job : Nat)
       (brand model : String) (conf profit : Int) (now : Nat),
      TimestampsFresh (create_from_scraper_match id pid url title price job
        brand model conf profit now)) ∧
    (∀ (p : ProductListing) (ns : ListingState) (tb : String) (now : Nat),
      TimestampsFresh p → can_transition p.state ns = true →
        lifecycle_slot p ns = none ∧
        lifecycle_slot (transition_result p ns tb now) ns = some now ∧
        (∀ s, s ≠ ns →
          lifecycle_slot (transition_result p ns tb now) s =
            lifecycle_slot p s) ∧
        TimestampsFresh (transition_result p ns tb now)) := by
  constructor
  · intro id pid url title price job brand model conf profit now s _
    cases s <;> rfl
  · intro p ns tb now hfresh hcan
    have hns : ns ≠ .FOUND := by
      intro h
      rw [h, can_transition_to_found] at hcan
      exact Bool.false_ne_true hcan
    refine ⟨hfresh ns (reach_of_can p.state ns hcan),
      transition_result_slot_self p ns tb now hns,
      fun s hs => transition_result_slot_other p ns tb now s hs, ?_⟩
    intro s hs
    rw [transition_result_state] at hs
    have hsne : s ≠ ns := by
      intro h
      rw [h, reach_self_false] at hs
      exact Bool.false_ne_true hs
    rw [transition_result_slot_other p ns tb now s hsne]
    exact hfresh s (reach_trans_of_can p.state ns s hcan hs)

/-- A freshly created aggregate, used to instantiate C5's amended theorem. -/
def c5_fresh : ProductListing :=
  create_from_scraper_match 4 230 "url" "title" 400 9 "Sony" "a6400" 95 100 0

/-- Witness for C5 (amended): a fresh aggregate satisfies the invariant,
and transitioning it to MESSAGING sets the previously-null slot. -/
theorem lifecycle_timestamp_set_once_witness :
    TimestampsFresh c5_fresh ∧
    can_transition c5_fresh.state .MESSAGING = true ∧
    lifecycle_slot c5_fresh .MESSAGING = none ∧
    lifecycle_slot (transition_result c5_fresh .MESSAGING "tester" 3)
      .MESSAGING = some 3 ∧
    TimestampsFresh (transition_result c5_fresh .MESSAGING "tester" 3) := by
  have h := lifecycle_timestamp_set_once.2 c5_fresh .MESSAGING "tester" 3
    (by decide) (by decide)
  exact ⟨by decide, by decide, h.1, h.2.1, h.2.2.2⟩

/-- All four effectful steps of one ingestion iteration complete. -/
def all_steps_ok (s : MatchStep) : Bool :=
  s.build_ok && s.save_ok && s.history_ok && s.publish_ok

/-- The iteration got at least as far as recording history. -/
def reached_history (s : MatchStep) : Bool :=
  s.build_ok && s.save_ok && s.history_ok

/-- The single event a created match publishes (its buffered
`ListingCreatedEvent`). -/
def created_event (job : Nat) (s : MatchStep) : DomainEvent :=
  DomainEvent.listingCreated s.listing_id s.m.product_id job s.m.brand
    s.m.model s.m.url s.m.price s.m.confidence s.m.potential_profit

theorem create_listings_count (job : Nat) (brand : String) (now : Nat)
    (steps : List MatchStep) :
    (create_listings_execute job brand now steps).1.created_listing_ids.length +
      (create_listings_execute job brand now steps).1.skipped_count =
      steps.length := by
  induction steps with
  | nil => rfl
  | cons s rest ih =>
    cases hb : s.build_ok <;> cases hsv : s.save_ok <;>
      cases hh : s.history_ok <;> cases hp : s.publish_ok <;>
      simp [create_listings_execute, ingest_one, hb, hsv, hh, hp] <;> omega

theorem create_listings_created_ids (job : Nat) (brand : String) (now : Nat)
    (steps : List MatchStep) :
    (create_listings_execute job brand now steps).1.created_listing_ids =
      (steps.filter all_steps_ok).map MatchStep.listing_id := by
  induction steps with
  | nil => rfl
  | cons s rest ih =>
    cases hb : s.build_ok <;> cases hsv : s.save_ok <;>
      cases hh : s.history_ok <;> cases hp : s.publish_ok <;>
      simp [create_listings_execute, ingest_one, all_steps_ok, hb, hsv, hh,
        hp, ih]

theorem create_listings_history (job : Nat) (brand : String) (now : Nat)
    (steps : List MatchStep) :
    (create_listings_execute job brand now steps).2.history =
      (steps.filter reached_history).map (ingest_history_row job brand) := by
  induction steps with
  | nil => rfl
  | cons s rest ih =>
    cases hb : s.build_ok <;> cases hsv : s.save_ok <;>
      cases hh : s.history_ok <;> cases hp : s.publish_ok <;>
      simp [create_listings_execute, ingest_one, reached_history, hb, hsv,
        hh, hp, ih]

theorem create_listings_published (job : Nat) (brand : String) (now : Nat)
    (steps : List MatchStep) :
    (create_listings_execute job brand now steps).2.published =
      (steps.filter all_steps_ok).map (created_event job) := by
  induction steps with
  | nil => rfl
  | cons s rest ih =>
    cases hb : s.build_ok <;> cases hsv : s.save_ok <;>
      cases hh : s.history_ok <;> cases hp : s.publish_ok <;>
      simp [create_listings_execute, ingest_one, all_steps_ok, hb, hsv, hh,
        hp, ih, built_listing, create_from_scraper_match, created_event]

/-- C6: ingestion processes each match independently — the final output
satisfies `created + skipped = batch size`; the created identities are
exactly those of the matches whose four steps all completed, in order;
there is exactly one history row (`from_state` null, `to_state` FOUND) per
match that reached the history step, and none for any other; the published
events are exactly the creation events of the fully processed matches; and
when listing identities are distinct, no event is published about a match
that failed at persistence. -/
theorem create_listings_from_scraper_spec (job : Nat) (brand : String)
    (now : Nat) (steps : List MatchStep) :
    ((create_listings_execute job brand now steps).1.created_listing_ids.length +
      (create_listings_execute job brand now steps).1.skipped_count =
      steps.length) ∧
    ((create_listings_execute job brand now steps).1.created_listing_ids =
      (steps.filter all_steps_ok).map MatchStep.listing_id) ∧
    ((create_listings_execute job brand now steps).2.history =
      (steps.filter reached_history).map (ingest_history_row job brand)) ∧
    (∀ r ∈ (create_listings_execute job brand now steps).2.history,
      r.from_state = none ∧ r.to_state = .FOUND) ∧
    ((create_listings_execute job brand now steps).2.published =
      (steps.filter all_steps_ok).map (created_event job)) ∧
    ((steps.map MatchStep.listing_id).Nodup →
      ∀ s ∈ steps, s.save_ok = false →
        ∀ e ∈ (create_listings_execute job brand now steps).2.published,
          e.about ≠ s.listing_id) := by
  refine ⟨create_listings_count job brand now steps,
    create_listings_created_ids job brand now steps,
    create_listings_history job brand now steps, ?_,
    create_listings_published job brand now steps, ?_⟩
  · intro r hr
    rw [create_listings_history job brand now steps] at hr
    obtain ⟨t, _, rfl⟩ := List.mem_map.mp hr
    exact ⟨rfl, rfl⟩
  · intro hnodup s hs hsave e he heq
    rw [create_listings_published job brand now steps] at he
    obtain ⟨t, ht, rfl⟩ := List.mem_map.mp he
    obtain ⟨htmem, htok⟩ := List.mem_filter.mp ht
    have hts : t = s := by
      refine List.inj_on_of_nodup_map hnodup htmem hs ?_
      exact heq
    rw [hts] at htok
    simp [all_steps_ok, hsave] at htok

/-- Witness for C6: a two-match batch, one fully processed and one failing
at persistence, yields `created = [id₁]`, `skipped = 1`, one FOUND history
row, and no event about the failed match. -/
theorem create_listings_from_scraper_spec_witness :
    (create_listings_execute 9 "Sony" 0
        [⟨⟨"u1", "t1", 400, 230, "Sony", "a6400", 95, 100⟩, 11, true, true,
           true, true⟩,
         ⟨⟨"u2", "t2", 500, 231, "Sony", "a7", 90, 120⟩, 12, true, false,
           true, true⟩]).1.created_listing_ids.length +
      (create_listings_execute 9 "Sony" 0
        [⟨⟨"u1", "t1", 400, 230, "Sony", "a6400", 95, 100⟩, 11, true, true,
           true, true⟩,
         ⟨⟨"u2", "t2", 500, 231, "Sony", "a7", 90, 120⟩, 12, true, false,
           true, true⟩]).1.skipped_count = 2 ∧
    (∀ e ∈ (create_listings_execute 9 "Sony" 0
        [⟨⟨"u1", "t1", 400, 230, "Sony", "a6400", 95, 100⟩, 11, true, true,
           true, true⟩,
         ⟨⟨"u2", "t2", 500, 231, "Sony", "a7", 90, 120⟩, 12, true, false,
           true, true⟩]).2.published, e.about ≠ 12) := by
  have h := create_listings_from_scraper_spec 9 "Sony" 0
    [⟨⟨"u1", "t1", 400, 230, "Sony", "a6400", 95, 100⟩, 11, true, true,
       true, true⟩,
     ⟨⟨"u2", "t2", 500, 231, "Sony", "a7", 90, 120⟩, 12, true, false, true,
       true⟩]
  refine ⟨h.1, ?_⟩
  intro e he
  exact h.2.2.2.2.2 (by decide)
    ⟨⟨"u2", "t2", 500, 231, "Sony", "a7", 90, 120⟩, 12, true, false, true,
      true⟩ (by simp) rfl e he

/-- C7: the transition use case raises `ListingNotFoundError` for an
unknown identity and `InvalidStateTransitionError` for a disallowed
transition, and the two are distinct; on either error no save, no history
row and no publish happens; on success it persists the transitioned
aggregate, appends exactly one history record whose metadata carries the
triggering actor (and the optional reason), and publishes the drained
events. -/
theorem transition_use_case_spec :
    (∀ (input : TransitionInput) (now : Nat),
      transition_listing_state_execute none input now =
        (.error (.listingNotFound input.listing_id), ⟨[], [], []⟩)) ∧
    (∀ (i : Nat) (e : InvalidStateTransitionError),
      UseCaseError.listingNotFound i ≠ UseCaseError.invalidTransition e) ∧
    (∀ (p : ProductListing) (input : TransitionInput) (now : Nat),
      can_transition p.state input.to_state = false →
      transition_listing_state_execute (some p) input now =
        (.error (.invalidTransition ⟨p.state, input.to_state⟩),
         ⟨[], [], []⟩)) ∧
    (∀ (p : ProductListing) (input : TransitionInput) (now : Nat),
      can_transition p.state input.to_state = true →
      transition_listing_state_execute (some p) input now =
        (.ok ⟨p.id, p.state, input.to_state⟩,
         ⟨[transition_result p input.to_state input.triggered_by now],
          [⟨p.id, some p.state, input.to_state, input.triggered_by,
            transition_metadata input.triggered_by input.reason⟩],
          (transition_result p input.to_state input.triggered_by now).events⟩)) := by
  refine ⟨fun input now => rfl, fun i e h => UseCaseError.noConfusion h,
    ?_, ?_⟩
  · intro p input now h
    simp [transition_listing_state_execute,
      transition_to_eq_error p input.to_state input.triggered_by now h]
  · intro p input now h
    simp [transition_listing_state_execute,
      transition_to_eq_ok p input.to_state input.triggered_by now h,
      collect_events, transition_result_id]

/-- A stored aggregate used to instantiate C7. -/
def c7_listing : ProductListing :=
  create_from_scraper_match 5 230 "url" "title" 400 9 "Sony" "a6400" 95 100 0

/-- Witness for C7 at concrete inputs: a missing identity, a disallowed
FOUND→SOLD request, and a successful FOUND→MESSAGING request carrying a
reason. -/
theorem transition_use_case_spec_witness :
    transition_listing_state_execute none ⟨5, .MESSAGING, "ops", none⟩ 3 =
      (.error (.listingNotFound 5), ⟨[], [], []⟩) ∧
    transition_listing_state_execute (some c7_listing)
        ⟨5, .SOLD, "ops", none⟩ 3 =
      (.error (.invalidTransition ⟨.FOUND, .SOLD⟩), ⟨[], [], []⟩) ∧
    transition_listing_state_execute (some c7_listing)
        ⟨5, .MESSAGING, "ops", some "seller responded"⟩ 3 =
      (.ok ⟨5, .FOUND, .MESSAGING⟩,
       ⟨[transition_result c7_listing .MESSAGING "ops" 3],
        [⟨5, some .FOUND, .MESSAGING, "ops",
          [("triggered_by", "ops"), ("reason", "seller responded")]⟩],
        (transition_result c7_listing .MESSAGING "ops" 3).events⟩) := by
  refine ⟨transition_use_case_spec.1 ⟨5, .MESSAGING, "ops", none⟩ 3, ?_, ?_⟩
  · have h := transition_use_case_spec.2.2.1 c7_listing
      ⟨5, .SOLD, "ops", none⟩ 3 (by decide)
    exact h
  · have h := transition_use_case_spec.2.2.2 c7_listing
      ⟨5, .MESSAGING, "ops", some "seller responded"⟩ 3 (by decide)
    rw [h]
    simp [transition_metadata, c7_listing, create_from_scraper_match]

/-- The try/except around every release attempt discards the outcome: an
absorbed stop never changes the run. -/
theorem absorb_stop_eq (b : Bool) (r : PollRun) : absorb_stop b r = r := by
  cases b <;> rfl

/-- A retryable response (pending, running, or unrecognized status)
consumes exactly one attempt and the loop continues at the next index. -/
theorem poll_loop_retryable_step (s : Nat → PollResponse) (fs : Bool)
    (fuel i : Nat) (h : retryable_response (s i)) :
    poll_loop s fs (fuel + 1) i = bump (poll_loop s fs fuel (i + 1)) := by
  obtain ⟨h1, h2, h3, h4⟩ := h
  rw [poll_loop.eq_def]
  by_cases hp : (s i).status = "pending" ∨ (s i).status = "running" <;>
    simp [h1, h2, h3, h4, hp]

/-- A status-query exception consumes TWO attempts (the increment at the
top of the `try` plus the increment in the `except` handler) and the loop
continues. -/
theorem poll_loop_query_error_step (s : Nat → PollResponse) (fs : Bool)
    (fuel i : Nat) (h : (s i).query_raises = true) :
    poll_loop s fs (fuel + 2) i = bump (poll_loop s fs fuel (i + 1)) := by
  rw [poll_loop.eq_def]
  simp [h]

/-- An ingestion exception on a completed status likewise consumes two
attempts, after the one `process_scraper_matches` call was made; the
release is not reached. -/
theorem poll_loop_ingest_error_step (s : Nat → PollResponse) (fs : Bool)
    (fuel i : Nat) (h1 : (s i).query_raises = false)
    (h2 : (s i).status = "completed") (h3 : (s i).match_list ≠ [])
    (h4 : (s i).ingest_raises = true) :
    poll_loop s fs (fuel + 2) i =
      add_ingest (s i).match_list (bump (poll_loop s fs fuel (i + 1))) := by
  rw [poll_loop.eq_def]
  simp [h1, h2, h3, h4]

/-- A clean completed response with matches: one ingestion, one absorbed
release, loop terminates as a success. -/
theorem poll_loop_completed_step (s : Nat → PollResponse) (fs : Bool)
    (fuel i : Nat) (h1 : (s i).query_raises = false)
    (h2 : (s i).status = "completed") (h3 : (s i).match_list ≠ [])
    (h4 : (s i).ingest_raises = false) :
    poll_loop s fs (fuel + 1) i =
      ⟨[(s i).match_list], 1, 1, .completed, some "completed"⟩ := by
  rw [poll_loop.eq_def]
  simp [h1, h2, h3, h4, absorb_stop_eq]

/-- A failed/error response: no ingestion, one absorbed release, loop
terminates. -/
theorem poll_loop_failed_step (s : Nat → PollResponse) (fs : Bool)
    (fuel i : Nat) (h1 : (s i).query_raises = false)
    (h2 : (s i).status = "failed" ∨ (s i).status = "error") :
    poll_loop s fs (fuel + 1) i = ⟨[], 1, 1, .failed, some (s i).status⟩ := by
  have hne : (s i).status ≠ "completed" := by
    rcases h2 with h | h <;> rw [h] <;> decide
  rw [poll_loop.eq_def]
  simp [h1, hne, h2, absorb_stop_eq]

/-- Every run attempts the release exactly once, whichever way it ends. -/
theorem poll_loop_stop_once (s : Nat → PollResponse) (fs : Bool) :
    ∀ fuel i, (poll_loop s fs fuel i).stop_attempts = 1 := by
  intro fuel
  induction fuel using Nat.strong_induction_on with
  | _ fuel ih =>
    intro i
    match fuel with
    | 0 => rw [poll_loop.eq_def]; simp [absorb_stop_eq]
    | fuel + 1 =>
      by_cases hq : (s i).query_raises
      · match fuel with
        | 0 => rw [poll_loop.eq_def]; simp [hq, absorb_stop_eq]
        | f + 1 =>
          rw [poll_loop_query_error_step s fs f i hq]
          simpa [bump] using ih f (by omega) (i + 1)
      · by_cases hc : (s i).status = "completed"
        · by_cases hm : (s i).match_list = []
          · rw [poll_loop.eq_def]; simp [hq, hc, hm, absorb_stop_eq]
          · by_cases hing : (s i).ingest_raises
            · match fuel with
              | 0 =>
                rw [poll_loop.eq_def]
                simp [hq, hc, hm, hing, absorb_stop_eq]
              | f + 1 =>
                rw [poll_loop_ingest_error_step s fs f i
                  (by simpa using hq) hc hm hing]
                simpa [add_ingest, bump] using ih f (by omega) (i + 1)
            · rw [poll_loop_completed_step s fs fuel i
                (by simpa using hq) hc hm (by simpa using hing)]
        · by_cases hfe : (s i).status = "failed" ∨ (s i).status = "error"
          · rw [poll_loop_failed_step s fs fuel i (by simpa using hq) hfe]
          · have hr : retryable_response (s i) := by
              refine ⟨by simpa using hq, hc, ?_, ?_⟩ <;> tauto
            rw [poll_loop_retryable_step s fs fuel i hr]
            simpa [bump] using ih fuel (by omega) (i + 1)

/-- A clean completed response with an EMPTY match list: the
`if matches:` guard skips ingestion entirely; one absorbed release, loop
terminates as a success. -/
theorem poll_loop_completed_empty_step (s : Nat → PollResponse) (fs : Bool)
    (fuel i : Nat) (h1 : (s i).query_raises = false)
    (h2 : (s i).status = "completed") (h3 : (s i).match_list = []) :
    poll_loop s fs (fuel + 1) i = ⟨[], 1, 1, .completed, some "completed"⟩ := by
  rw [poll_loop.eq_def]
  simp [h1, h2, h3, absorb_stop_eq]

/-- The run is insensitive to release outcomes: two environments agreeing
on everything except which `stop_container` calls raise produce identical
runs — release failures are absorbed, never propagated. -/
theorem poll_loop_stop_outcome_independent (s s' : Nat → PollResponse)
    (fs fs' : Bool)
    (hagree : ∀ j, (s' j).query_raises = (s j).query_raises ∧
      (s' j).status = (s j).status ∧
      (s' j).match_list = (s j).match_list ∧
      (s' j).ingest_raises = (s j).ingest_raises) :
    ∀ fuel i, poll_loop s' fs' fuel i = poll_loop s fs fuel i := by
  intro fuel
  induction fuel using Nat.strong_induction_on with
  | _ fuel ih =>
    intro i
    obtain ⟨ha, hb, hc, hd⟩ := hagree i
    match fuel with
    | 0 =>
      rw [poll_loop.eq_def, poll_loop.eq_def]
      simp [absorb_stop_eq]
    | fuel + 1 =>
      by_cases hq : (s i).query_raises = true
      · have hq' : (s' i).query_raises = true := by rw [ha]; exact hq
        match fuel with
        | 0 =>
          rw [poll_loop.eq_def, poll_loop.eq_def]
          simp [hq, hq', absorb_stop_eq]
        | f + 1 =>
          rw [poll_loop_query_error_step s' fs' f i hq',
            poll_loop_query_error_step s fs f i hq, ih f (by omega) (i + 1)]
      · have hq2 : (s i).query_raises = false := by simpa using hq
        have hq2' : (s' i).query_raises = false := by rw [ha]; exact hq2
        by_cases hcomp : (s i).status = "completed"
        · have hcomp' : (s' i).status = "completed" := by rw [hb]; exact hcomp
          by_cases hm : (s i).match_list = []
          · rw [poll_loop_completed_empty_step s' fs' fuel i hq2' hcomp'
                (by rw [hc]; exact hm),
              poll_loop_completed_empty_step s fs fuel i hq2 hcomp hm]
          · have hm' : (s' i).match_list ≠ [] := by rw [hc]; exact hm
            by_cases hing : (s i).ingest_raises = true
            · have hing' : (s' i).ingest_raises = true := by
                rw [hd]; exact hing
              match fuel with
              | 0 =>
                rw [poll_loop.eq_def, poll_loop.eq_def]
                simp [hq2, hq2', hcomp, hcomp', hm, hm', hing, hing',
                  absorb_stop_eq, hc]
              | f + 1 =>
                rw [poll_loop_ingest_error_step s' fs' f i hq2' hcomp' hm'
                    hing',
                  poll_loop_ingest_error_step s fs f i hq2 hcomp hm hing,
                  ih f (by omega) (i + 1), hc]
            · have hing2 : (s i).ingest_raises = false := by simpa using hing
              have hing2' : (s' i).ingest_raises = false := by
                rw [hd]; exact hing2
              rw [poll_loop_completed_step s' fs' fuel i hq2' hcomp' hm'
                  hing2',
                poll_loop_completed_step s fs fuel i hq2 hcomp hm hing2, hc]
        · by_cases hfe : (s i).status = "failed" ∨ (s i).status = "error"
          · have hfe' : (s' i).status = "failed" ∨ (s' i).status = "error" := by
              rw [hb]; exact hfe
            rw [poll_loop_failed_step s' fs' fuel i hq2' hfe',
              poll_loop_failed_step s fs fuel i hq2 hfe, hb]
          · have hr : retryable_response (s i) := by
              refine ⟨hq2, hcomp, ?_, ?_⟩ <;> tauto
            have hr' : retryable_response (s' i) := by
              refine ⟨hq2', ?_, ?_, ?_⟩ <;> rw [hb] <;> tauto
            rw [poll_loop_retryable_step s' fs' fuel i hr',
              poll_loop_retryable_step s fs fuel i hr,
              ih fuel (by omega) (i + 1)]

/-- A run fed only retryable responses exhausts its fuel: one iteration per
unit, timeout exit, one release attempt, no ingestion. -/
theorem poll_loop_all_retryable (s : Nat → PollResponse) (fs : Bool)
    (h : ∀ j, retryable_response (s j)) :
    ∀ fuel i, poll_loop s fs fuel i = ⟨[], 1, fuel, .timeout, none⟩ := by
  intro fuel
  induction fuel with
  | zero =>
    intro i
    rw [poll_loop.eq_def]
    simp [absorb_stop_eq]
  | succ n ih =>
    intro i
    rw [poll_loop_retryable_step s fs n i (h i), ih (i + 1)]
    rfl

/-- A run in which every status query raises consumes its fuel two units
per iteration: `2 * n` fuel yields `n` iterations, timeout exit, one
release attempt, no ingestion. -/
theorem poll_loop_all_query_errors (s : Nat → PollResponse) (fs : Bool)
    (h : ∀ j, (s j).query_raises = true) :
    ∀ n i, poll_loop s fs (2 * n) i = ⟨[], 1, n, .timeout, none⟩ := by
  intro n
  induction n with
  | zero =>
    intro i
    rw [show 2 * 0 = 0 from rfl, poll_loop.eq_def]
    simp [absorb_stop_eq]
  | succ n ih =>
    intro i
    rw [show 2 * (n + 1) = 2 * n + 2 by ring,
      poll_loop_query_error_step s fs (2 * n) i (h i), ih (i + 1)]
    rfl

/-- After `k` retryable responses, a clean completed response with matches
ends the run: one ingestion of exactly those matches, one release attempt,
`k + 1` iterations. -/
theorem poll_loop_reaches_completed (s : Nat → PollResponse) (fs : Bool) :
    ∀ (k i fuel : Nat), k + 1 ≤ fuel →
    (∀ j, i ≤ j → j < i + k → retryable_response (s j)) →
    (s (i + k)).query_raises = false → (s (i + k)).status = "completed" →
    (s (i + k)).ingest_raises = false → (s (i + k)).match_list ≠ [] →
    poll_loop s fs fuel i =
      ⟨[(s (i + k)).match_list], 1, k + 1, .completed, some "completed"⟩ := by
  intro k
  induction k with
  | zero =>
    intro i fuel hf hpre hq hc hing hm
    obtain ⟨f, rfl⟩ : ∃ f, fuel = f + 1 := ⟨fuel - 1, by omega⟩
    exact poll_loop_completed_step s fs f i hq hc hm hing
  | succ k ih =>
    intro i fuel hf hpre hq hc hing hm
    obtain ⟨f, rfl⟩ : ∃ f, fuel = f + 1 := ⟨fuel - 1, by omega⟩
    have hshift : i + 1 + k = i + (k + 1) := by omega
    rw [poll_loop_retryable_step s fs f i (hpre i le_rfl (by omega)),
      ih (i + 1) f (by omega)
        (fun j hj1 hj2 => hpre j (by omega) (by omega))
        (by rw [hshift]; exact hq) (by rw [hshift]; exact hc)
        (by rw [hshift]; exact hing) (by rw [hshift]; exact hm),
      hshift]
    rfl

/-- After `k` retryable responses, a failed/error response ends the run:
no ingestion, one release attempt, `k + 1` iterations. -/
theorem poll_loop_reaches_failed (s : Nat → PollResponse) (fs : Bool) :
    ∀ (k i fuel : Nat), k + 1 ≤ fuel →
    (∀ j, i ≤ j → j < i + k → retryable_response (s j)) →
    (s (i + k)).query_raises = false →
    ((s (i + k)).status = "failed" ∨ (s (i + k)).status = "error") →
    poll_loop s fs fuel i =
      ⟨[], 1, k + 1, .failed, some (s (i + k)).status⟩ := by
  intro k
  induction k with
  | zero =>
    intro i fuel hf hpre hq hfe
    obtain ⟨f, rfl⟩ : ∃ f, fuel = f + 1 := ⟨fuel - 1, by omega⟩
    exact poll_loop_failed_step s fs f i hq hfe
  | succ k ih =>
    intro i fuel hf hpre hq hfe
    obtain ⟨f, rfl⟩ : ∃ f, fuel = f + 1 := ⟨fuel - 1, by omega⟩
    have hshift : i + 1 + k = i + (k + 1) := by omega
    rw [poll_loop_retryable_step s fs f i (hpre i le_rfl (by omega)),
      ih (i + 1) f (by omega)
        (fun j hj1 hj2 => hpre j (by omega) (by omega))
        (by rw [hshift]; exact hq) (by rw [hshift]; exact hfe),
      hshift]
    rfl

/-- An environment in which every status query raises. -/
def all_error_stream : Nat → PollResponse := fun _ => ⟨true, "", [], false, false⟩

/-- C3 counterexample: when every attempt raises, the run performs 20
iterations, not the 40 the claim states — the handler's `poll_count += 1`
comes on top of the increment already made at the top of the `try` block,
so each failed attempt consumes two units of the 40-attempt ceiling. -/
theorem polling_errors_counterexample :
    (poll_scraper_and_process all_error_stream false).iterations = 20 ∧
    (poll_scraper_and_process all_error_stream false).iterations ≠ 40 := by
  decide

/-- C3 (amended): every attempt in which the status query raises (or in
which ingesting a completed result raises) is caught and the loop
continues — but such a failure consumes TWO attempts of the 40-attempt
ceiling (the increment at the top of the iteration plus the extra increment
in the `except` handler); in particular a run in which every attempt raises
performs 20 attempts before terminating, not 40. -/
theorem polling_error_consumes_two_attempts (s : Nat → PollResponse)
    (fs : Bool) :
    (∀ fuel i, (s i).query_raises = true →
      poll_loop s fs (fuel + 2) i = bump (poll_loop s fs fuel (i + 1))) ∧
    (∀ fuel i, (s i).query_raises = false → (s i).status = "completed" →
      (s i).match_list ≠ [] → (s i).ingest_raises = true →
      poll_loop s fs (fuel + 2) i =
        add_ingest (s i).match_list (bump (poll_loop s fs fuel (i + 1)))) ∧
    ((∀ j, (s j).query_raises = true) →
      poll_scraper_and_process s fs = ⟨[], 1, 20, .timeout, none⟩) := by
  refine ⟨fun fuel i h => poll_loop_query_error_step s fs fuel i h,
    fun fuel i h1 h2 h3 h4 =>
      poll_loop_ingest_error_step s fs fuel i h1 h2 h3 h4, fun h => ?_⟩
  have h40 : max_polls = 2 * 20 := rfl
  rw [poll_scraper_and_process, h40]
  exact poll_loop_all_query_errors s fs h 20 0

/-- Witness for C3 (amended) on the all-raising environment: one raising
attempt steps the loop on with two units consumed, and the whole run does
20 iterations. -/
theorem polling_error_consumes_two_attempts_witness :
    poll_loop all_error_stream false 40 0 =
      bump (poll_loop all_error_stream false 38 1) ∧
    poll_scraper_and_process all_error_stream false =
      ⟨[], 1, 20, .timeout, none⟩ :=
  ⟨(polling_error_consumes_two_attempts all_error_stream false).1 38 0 rfl,
   (polling_error_consumes_two_attempts all_error_stream false).2.2
     (fun _ => rfl)⟩

/-- C4: for every environment, (i) the release is attempted exactly once
per run, whichever way the run ends; (ii) the run is independent of release
failures (they are absorbed, never propagated); (iii) after any retryable
prefix, a clean completed response is ingested exactly once and the run
terminates; (iv) after any retryable prefix, a failed/error response
terminates the run with no ingestion; (v) a run fed only pending/running
responses ends at the 40-attempt ceiling with no ingestion. -/
theorem polling_coordinator_outcomes (s : Nat → PollResponse) (fs : Bool) :
    (∀ fuel i, (poll_loop s fs fuel i).stop_attempts = 1) ∧
    (∀ (s' : Nat → PollResponse) (fs' : Bool),
      (∀ j, (s' j).query_raises = (s j).query_raises ∧
        (s' j).status = (s j).status ∧
        (s' j).match_list = (s j).match_list ∧
        (s' j).ingest_raises = (s j).ingest_raises) →
      ∀ fuel i, poll_loop s' fs' fuel i = poll_loop s fs fuel i) ∧
    (∀ k, k + 1 ≤ max_polls →
      (∀ j, j < k → retryable_response (s j)) →
      (s k).query_raises = false → (s k).status = "completed" →
      (s k).ingest_raises = false → (s k).match_list ≠ [] →
      poll_scraper_and_process s fs =
        ⟨[(s k).match_list], 1, k + 1, .completed, some "completed"⟩) ∧
    (∀ k, k + 1 ≤ max_polls →
      (∀ j, j < k → retryable_response (s j)) →
      (s k).query_raises = false →
      ((s k).status = "failed" ∨ (s k).status = "error") →
      poll_scraper_and_process s fs =
        ⟨[], 1, k + 1, .failed, some (s k).status⟩) ∧
    ((∀ j, (s j).query_raises = false ∧
        ((s j).status = "pending" ∨ (s j).status = "running")) →
      poll_scraper_and_process s fs = ⟨[], 1, 40, .timeout, none⟩) := by
  refine ⟨poll_loop_stop_once s fs,
    fun s' fs' hagree => poll_loop_stop_outcome_independent s s' fs fs' hagree,
    ?_, ?_, ?_⟩
  · intro k hk hpre hq hc hing hm
    have h := poll_loop_reaches_completed s fs k 0 max_polls hk
      (fun j hj1 hj2 => hpre j (by omega))
      (by rw [Nat.zero_add]; exact hq) (by rw [Nat.zero_add]; exact hc)
      (by rw [Nat.zero_add]; exact hing) (by rw [Nat.zero_add]; exact hm)
    rw [poll_scraper_and_process, h, Nat.zero_add]
  · intro k hk hpre hq hfe
    have h := poll_loop_reaches_failed s fs k 0 max_polls hk
      (fun j hj1 hj2 => hpre j (by omega))
      (by rw [Nat.zero_add]; exact hq) (by rw [Nat.zero_add]; exact hfe)
    rw [poll_scraper_and_process, h, Nat.zero_add]
  · intro h
    have hr : ∀ j, retryable_response (s j) := by
      intro j
      obtain ⟨h1, h2⟩ := h j
      refine ⟨h1, ?_, ?_, ?_⟩ <;> rcases h2 with h' | h' <;> rw [h'] <;> decide
    exact poll_loop_all_retryable s fs hr max_polls 0

/-- The spec's acceptance environment: running, running, then completed
with two matches (and a release that raises, to exercise absorption). -/
def rrc_stream : Nat → PollResponse := fun i =>
  if i < 2 then ⟨false, "running", [], false, false⟩
  else ⟨false, "completed", [7, 8], false, true⟩

/-- Witness for C4 on `[running, running, completed]`: exactly one
ingestion of the two matches, exactly one release attempt (which raises and
is absorbed), three iterations, success exit. -/
theorem polling_coordinator_outcomes_witness :
    poll_scraper_and_process rrc_stream true =
      ⟨[[7, 8]], 1, 3, .completed, some "completed"⟩ ∧
    (poll_loop rrc_stream true 40 0).stop_attempts = 1 := by
  have hpre : ∀ j, j < 2 → retryable_response (rrc_stream j) := by
    intro j hj
    have : rrc_stream j = ⟨false, "running", [], false, false⟩ := by
      simp [rrc_stream, hj]
    rw [this]
    exact ⟨rfl, by decide, by decide, by decide⟩
  have h := (polling_coordinator_outcomes rrc_stream true).2.2.1 2
    (by decide) hpre rfl rfl rfl (by decide)
  exact ⟨h, (polling_coordinator_outcomes rrc_stream true).1 40 0⟩

/-- C9: the loop never terminates because of a status outside
{completed, failed, error, pending, running} — such a response consumes one
attempt and the loop continues; and every run ends either at the attempt
ceiling, or on a response whose status was exactly `completed`, or on a
response whose status was exactly `failed` or `error`. -/
theorem polling_unknown_status_retryable (s : Nat → PollResponse)
    (fs : Bool) :
    (∀ fuel i, (s i).query_raises = false →
      (s i).status ∉ (["completed", "failed", "error", "pending",
        "running"] : List String) →
      poll_loop s fs (fuel + 1) i = bump (poll_loop s fs fuel (i + 1))) ∧
    (∀ fuel i,
      ((poll_loop s fs fuel i).exit_kind = .timeout ∧
        (poll_loop s fs fuel i).exit_status = none) ∨
      ((poll_loop s fs fuel i).exit_kind = .completed ∧
        (poll_loop s fs fuel i).exit_status = some "completed") ∨
      ((poll_loop s fs fuel i).exit_kind = .failed ∧
        ((poll_loop s fs fuel i).exit_status = some "failed" ∨
          (poll_loop s fs fuel i).exit_status = some "error"))) := by
  constructor
  · intro fuel i h1 h2
    simp only [List.mem_cons, List.mem_singleton] at h2
    push_neg at h2
    obtain ⟨hc, hf, he, _, _⟩ := h2
    exact poll_loop_retryable_step s fs fuel i ⟨h1, hc, hf, he⟩
  · intro fuel
    induction fuel using Nat.strong_induction_on with
    | _ fuel ih =>
      intro i
      match fuel with
      | 0 =>
        left
        rw [poll_loop.eq_def]
        simp [absorb_stop_eq]
      | fuel + 1 =>
        by_cases hq : (s i).query_raises = true
        · match fuel with
          | 0 =>
            left
            rw [poll_loop.eq_def]
            simp [hq, absorb_stop_eq]
          | f + 1 =>
            rw [poll_loop_query_error_step s fs f i hq]
            simpa [bump] using ih f (by omega) (i + 1)
        · have hq2 : (s i).query_raises = false := by simpa using hq
          by_cases hcomp : (s i).status = "completed"
          · by_cases hm : (s i).match_list = []
            · rw [poll_loop_completed_empty_step s fs fuel i hq2 hcomp hm]
              right; left; exact ⟨rfl, rfl⟩
            · by_cases hing : (s i).ingest_raises = true
              · match fuel with
                | 0 =>
                  left
                  rw [poll_loop.eq_def]
                  simp [hq2, hcomp, hm, hing, absorb_stop_eq]
                | f + 1 =>
                  rw [poll_loop_ingest_error_step s fs f i hq2 hcomp hm hing]
                  simpa [add_ingest, bump] using ih f (by omega) (i + 1)
              · rw [poll_loop_completed_step s fs fuel i hq2 hcomp hm
                  (by simpa using hing)]
                right; left; exact ⟨rfl, rfl⟩
          · by_cases hfe : (s i).status = "failed" ∨ (s i).status = "error"
            · rw [poll_loop_failed_step s fs fuel i hq2 hfe]
              right; right
              refine ⟨rfl, ?_⟩
              rcases hfe with h' | h' <;> rw [h']
              · left; rfl
              · right; rfl
            · have hr : retryable_response (s i) := by
                refine ⟨hq2, hcomp, ?_, ?_⟩ <;> tauto
              rw [poll_loop_retryable_step s fs fuel i hr]
              simpa [bump] using ih fuel (by omega) (i + 1)

/-- An environment serving one unrecognized status, then completion. -/
def unknown_status_stream : Nat → PollResponse := fun i =>
  if i = 0 then ⟨false, "mystery", [], false, false⟩
  else ⟨false, "completed", [3], false, false⟩

/-- Witness for C9: the unrecognized `mystery` status consumes one attempt
and polling continues; the run that then sees `completed` ends as a
success, exercising the only-three-exits disjunction. -/
theorem polling_unknown_status_retryable_witness :
    poll_loop unknown_status_stream false 40 0 =
      bump (poll_loop unknown_status_stream false 39 1) ∧
    (((poll_scraper_and_process unknown_status_stream false).exit_kind =
        .timeout ∧
      (poll_scraper_and_process unknown_status_stream false).exit_status =
        none) ∨
     ((poll_scraper_and_process unknown_status_stream false).exit_kind =
        .completed ∧
      (poll_scraper_and_process unknown_status_stream false).exit_status =
        some "completed") ∨
     ((poll_scraper_and_process unknown_status_stream false).exit_kind =
        .failed ∧
      ((poll_scraper_and_process unknown_status_stream false).exit_status =
        some "failed" ∨
       (poll_scraper_and_process unknown_status_stream false).exit_status =
        some "error"))) :=
  ⟨(polling_unknown_status_retryable unknown_status_stream false).1 39 0 rfl
     (by decide),
   (polling_unknown_status_retryable unknown_status_stream false).2 40 0⟩

/-- C10: a completed status whose result payload carries an empty match
list performs no ingestion at all (`process_scraper_matches` — the only
code that creates aggregates, history rows, or events — is never invoked),
still attempts to stop the compute resource exactly once, and terminates
the run as a success. -/
theorem polling_completed_empty_no_ingestion (s : Nat → PollResponse)
    (fs : Bool) (fuel i : Nat) (h1 : (s i).query_raises = false)
    (h2 : (s i).status = "completed") (h3 : (s i).match_list = []) :
    poll_loop s fs (fuel + 1) i =
      ⟨[], 1, 1, .completed, some "completed"⟩ :=
  poll_loop_completed_empty_step s fs fuel i h1 h2 h3

/-- An environment whose first response is completed with no matches. -/
def empty_completed_stream : Nat → PollResponse := fun _ =>
  ⟨false, "completed", [], false, false⟩

/-- Witness for C10 at the start of a full run (fuel 40 = 39 + 1). -/
theorem polling_completed_empty_no_ingestion_witness :
    poll_scraper_and_process empty_completed_stream false =
      ⟨[], 1, 1, .completed, some "completed"⟩ :=
  polling_completed_empty_no_ingestion empty_completed_stream false 39 0 rfl
    rfl rfl

end Aetos
